import Mathlib

/-!
Verification of the hermes LNURL-pay settlement pipeline
(src/router/handlers/lnurlp/callback.rs, src/types/lnurl.rs).

The Rust source is shallowly embedded: async handlers become pure
functions threading an explicit database value and an environment of
external collaborators (nostr event parsing, the federation client,
the mint, the relay client, the xmpp transport), each modelled as a
function-valued field so theorems quantify over every possible
behaviour of the collaborator.  Store operations (`?` on BMC calls)
are modelled as total state updates; their own failure modes are not
part of any claim.
-/

deriving instance DecidableEq for Except

namespace Hermes

/-! ## Nostr events (external `nostr` crate surface used by the code) -/

/-- Event kinds: the code only inspects whether `kind == Kind::ZapRequest`. -/
inductive Kind where
  | zapRequest
  | other (code : Nat)
deriving DecidableEq, Repr

/-- The slice of `nostr::Event` the handler inspects. -/
structure Event where
  kind : Kind
deriving DecidableEq, Repr

/-- Rust `Option::is_some_and`. -/
def isSomeAnd (o : Option α) (p : α → Bool) : Bool :=
  match o with
  | some a => p a
  | none => false

/-! ## Data model (model/invoice.rs, model/zap.rs, handlers/nostr.rs; fields from use) -/

/-- Invoice lifecycle state (model/invoice_state.rs; spec section 3). -/
inductive InvoiceState where
  | Created
  | Settled
  | Cancelled
deriving DecidableEq, Repr

/-- A persisted invoice row (`InvoiceForCreate` plus surrogate id and state). -/
structure InvoiceRow where
  id : Nat
  op_id : String
  federation_id : String
  app_user_id : Nat
  amount : Nat
  bolt11 : String
  state : InvoiceState
deriving DecidableEq, Repr

/-- A persisted zap (payment-request) record (`model::zap::Zap`). -/
structure Zap where
  id : Nat
  request : String
  event_id : Option String
deriving DecidableEq, Repr

/-- The store: invoice rows and zap rows. -/
structure Db where
  invoices : List InvoiceRow
  zaps : List Zap
deriving DecidableEq, Repr

/-- Recipient profile (`AppUserRelays`), fields as used by callback.rs. -/
structure AppUserRelays where
  name : String
  pubkey : String
  federation_id : String
  app_user_id : Nat
  dm_type : String
deriving DecidableEq, Repr

/-- `AppError`: an HTTP status code plus a reason string. -/
structure AppError where
  status : Nat
  error : String
deriving DecidableEq, Repr

/-- `LnurlStatus` from types/lnurl.rs. -/
inductive LnurlStatus where
  | Ok
  | Error
deriving DecidableEq, Repr

/-- Query parameters of the callback (`LnurlCallbackParams`). -/
structure LnurlCallbackParams where
  amount : Nat
  nonce : Option String
  comment : Option String
  proofofpayer : Option String
  nostr : Option String
deriving DecidableEq, Repr

/-- The callback response (`LnurlCallbackResponse`); `verify` is kept as the
string handed to `Url::parse` (parsing of this well-formed shape is external). -/
structure LnurlCallbackResponse where
  status : LnurlStatus
  reason : Option String
  pr : String
  verify : String
  success_action : Option (String × String)
  routes : Option (List String)
deriving DecidableEq, Repr

/-! ## Callback handler (handle_callback, callback.rs lines 82-185) -/

/-- `MIN_AMOUNT` (callback.rs line 80). -/
def MIN_AMOUNT : Nat := 1000

/-- External collaborators of `handle_callback`, one field per awaited call. -/
structure CallbackEnv where
  /-- `Event::from_json` (nostr crate); `none` models a parse error. -/
  parseEvent : String → Option Event
  /-- `AppUserRelaysBmc::get_by(mm, NameOrPubkey::Name, username)`. -/
  getUserRelays : String → Except String AppUserRelays
  /-- `FederationId::from_str`; `none` models a parse error. -/
  parseFederationId : String → Option String
  /-- membership of the federation id in the locked multimint client map. -/
  hasClient : String → Bool
  /-- `ln.create_bolt11_invoice(amount, ...)` returning `(op_id, pr)`. -/
  createBolt11 : Nat → Except String (String × String)
  /-- `CONFIG.domain`. -/
  domain : String
  /-- `CONFIG.port`. -/
  port : Nat

/-- Shallow embedding of `handle_callback`.  Returns the HTTP result and the
database after the call; early `return Err` leaves the database untouched.
The nostr guard reproduces the source condition verbatim:
`params.nostr.as_ref().is_some_and(|n| Event::from_json(n).is_ok_and(|e| e.kind == Kind::ZapRequest))`
rejects the request when the payload IS a well-formed zap request. -/
def handle_callback (env : CallbackEnv) (username : String)
    (params : LnurlCallbackParams) (db : Db) :
    Except AppError LnurlCallbackResponse × Db :=
  if params.amount < MIN_AMOUNT then
    (.error ⟨400, "Amount < MIN_AMOUNT"⟩, db)
  else if isSomeAnd params.nostr
      (fun n => isSomeAnd (env.parseEvent n) (fun e => e.kind == Kind.zapRequest)) then
    (.error ⟨400, "Invalid nostr event"⟩, db)
  else
    match env.getUserRelays username with
    | .error e => (.error ⟨500, e⟩, db)
    | .ok nip05relays =>
      match env.parseFederationId nip05relays.federation_id with
      | none => (.error ⟨400, "Invalid federation_id"⟩, db)
      | some federation_id =>
        if env.hasClient federation_id then
          match env.createBolt11 params.amount with
          | .error e => (.error ⟨500, e⟩, db)
          | .ok (op_id, pr) =>
            let id := db.invoices.length
            let db1 : Db :=
              { db with invoices := db.invoices ++
                  [{ id := id, op_id := op_id,
                     federation_id := nip05relays.federation_id,
                     app_user_id := nip05relays.app_user_id,
                     amount := params.amount, bolt11 := pr,
                     state := InvoiceState.Created }] }
            let db2 : Db :=
              match params.nostr with
              | some request =>
                  { db1 with zaps := db1.zaps ++
                      [{ id := id, request := request, event_id := none }] }
              | none => db1
            let verify_url :=
              "http://" ++ env.domain ++ ":" ++ toString env.port ++
                "/lnurlp/" ++ username ++ "/verify/" ++ op_id
            (.ok { status := LnurlStatus.Ok, reason := none, pr := pr,
                   verify := verify_url, success_action := none,
                   routes := some [] }, db2)
        else
          (.error ⟨400, "FederationId not found in multimint map"⟩, db)

/-! ## Concrete instances used to exercise the handler -/

/-- A recipient profile on federation `fed1` delivering over nostr. -/
def bobRelays : AppUserRelays :=
  { name := "bob", pubkey := "bobpk", federation_id := "fed1",
    app_user_id := 7, dm_type := "nostr" }

/-- A concrete environment: `zapreq` parses to a zap-request event,
`otherkind` parses to a non-zap event, anything else fails to parse. -/
def cEnv : CallbackEnv :=
  { parseEvent := fun s =>
      if s = "zapreq" then some { kind := Kind.zapRequest }
      else if s = "otherkind" then some { kind := Kind.other 1 }
      else none
    getUserRelays := fun u => if u = "bob" then .ok bobRelays else .error "user not found"
    parseFederationId := fun s => if s = "fed1" then some "fed1" else none
    hasClient := fun f => f = "fed1"
    createBolt11 := fun amt => .ok ("op42", "lnbc" ++ toString amt)
    domain := "example.com"
    port := 9000 }

/-- The empty store. -/
def db0 : Db := { invoices := [], zaps := [] }

/-- Callback parameters with a given amount and optional nostr payload. -/
def mkParams (amount : Nat) (nostr : Option String) : LnurlCallbackParams :=
  { amount := amount, nonce := none, comment := none,
    proofofpayer := none, nostr := nostr }

/-! ## Notifier (notify_user / send_nostr_dm / send_xmpp_msg, callback.rs lines 234-318) -/

/-- The structured delivery payload serialized as
`{operationId, amount, notes}` by both channels. -/
structure Payload where
  operationId : String
  amount : Nat
  notes : String
deriving DecidableEq, Repr

/-- External collaborators of the notifier, one field per awaited call. -/
structure NotifyEnv where
  /-- `mint.spend_notes(Amount::from_msats(amount), Duration::from_secs(secs), ())`,
  returning `(operation_id, notes)`; arguments are (msats, seconds). -/
  spendNotes : Nat → Nat → Except String (String × String)
  /-- `nostr.send_direct_msg(pubkey, payload, None)` returning the dm event id. -/
  sendDm : String → Payload → Except String String
  /-- `create_xmpp_client()`. -/
  xmppCreateClient : Except String Unit
  /-- `xmpp::BareJid::new(name@chat_server)`. -/
  xmppParseJid : String → Except String String
  /-- `CONFIG.xmpp_chat_server`. -/
  xmppChatServer : String
  /-- outcome of `xmpp_client.send_message(...)`; the source discards it. -/
  xmppSend : String → Payload → Bool
  /-- `ZapBmc::get(mm, id)`; `none` models the `Err` branch of `if let Ok`. -/
  zapGet : Nat → Option Zap
  /-- `Event::from_json(zap.request)`. -/
  parseEvent : String → Option Event
  /-- `create_zap_event(request, amount)` as an opaque signed-event handle;
  its internal construction is modelled separately for the receipt claims. -/
  createZapEvent : Event → Nat → Except String String
  /-- `nostr.send_event(event)` returning the broadcast event id. -/
  sendEvent : String → Except String String

/-- Observable effects of one notifier run: mint spends `(msats, seconds)`,
payloads handed to each channel, relay broadcast attempts, and
`ZapBmc::set_event_id` writes. -/
structure NotifyLog where
  spendCalls : List (Nat × Nat)
  nostrDms : List Payload
  xmppMsgs : List Payload
  broadcasts : List String
  eventIdSets : List (Nat × String)
deriving DecidableEq, Repr

/-- The log of a run that performed no effect. -/
def NotifyLog.empty : NotifyLog :=
  { spendCalls := [], nostrDms := [], xmppMsgs := [], broadcasts := [],
    eventIdSets := [] }

/-- Shallow embedding of `send_nostr_dm` (lines 265-288): one
`send_direct_msg` call whose failure propagates. -/
def send_nostr_dm (env : NotifyEnv) (relays : AppUserRelays)
    (operationId : String) (amount : Nat) (notes : String) :
    Except String Unit × List Payload :=
  let payload : Payload :=
    { operationId := operationId, amount := amount, notes := notes }
  match env.sendDm relays.pubkey payload with
  | .error e => (.error e, [payload])
  | .ok _dm => (.ok (), [payload])

/-- Shallow embedding of `send_xmpp_msg` (lines 290-317): client creation and
Jid parsing may fail, but the `send_message(...).await` result is discarded
(bare semicolon in the source) and the function returns `Ok(())`. -/
def send_xmpp_msg (env : NotifyEnv) (relays : AppUserRelays)
    (operationId : String) (amount : Nat) (notes : String) :
    Except String Unit × List Payload :=
  match env.xmppCreateClient with
  | .error e => (.error e, [])
  | .ok _client =>
    match env.xmppParseJid (relays.name ++ "@" ++ env.xmppChatServer) with
    | .error e => (.error e, [])
    | .ok recipient =>
      let payload : Payload :=
        { operationId := operationId, amount := amount, notes := notes }
      let _sendResult := env.xmppSend recipient payload
      (.ok (), [payload])

/-- The `match app_user_relays.dm_type.as_str()` dispatch of `notify_user`
(lines 245-249), returning the channel result together with the payloads
handed to the nostr channel and to the xmpp channel respectively. -/
def dispatch_dm (env : NotifyEnv) (relays : AppUserRelays)
    (operationId : String) (amount : Nat) (notes : String) :
    Except String Unit × List Payload × List Payload :=
  if relays.dm_type = "nostr" then
    let sent := send_nostr_dm env relays operationId amount notes
    (sent.1, sent.2, [])
  else if relays.dm_type = "xmpp" then
    let sent := send_xmpp_msg env relays operationId amount notes
    (sent.1, [], sent.2)
  else
    (.error "Unsupported dm_type", [], [])

/-- The `// Send zap if needed` block of `notify_user` (lines 251-262):
when a zap record exists, parse its stored payload, build the receipt
event, broadcast it, and persist the returned event id; every failure
propagates with `?`.  `base` is the effect log accumulated so far. -/
def zap_section (env : NotifyEnv) (id : Nat) (amount : Nat)
    (base : NotifyLog) : Except String Unit × NotifyLog :=
  match env.zapGet id with
  | none => (.ok (), base)
  | some zap =>
    match env.parseEvent zap.request with
    | none => (.error "zap request parse failed", base)
    | some request =>
      match env.createZapEvent request amount with
      | .error e => (.error e, base)
      | .ok event =>
        match env.sendEvent event with
        | .error e => (.error e, { base with broadcasts := [event] })
        | .ok event_id =>
            (.ok (),
              { base with
                  broadcasts := [event]
                  eventIdSets := [(id, event_id)] })

/-- Shallow embedding of `notify_user` (lines 234-263): spend notes for the
exact amount with a 604800-second validity window, dispatch on `dm_type`,
then run the zap block. -/
def notify_user (env : NotifyEnv) (relays : AppUserRelays) (id : Nat)
    (amount : Nat) : Except String Unit × NotifyLog :=
  match env.spendNotes amount 604800 with
  | .error e =>
      (.error e, { NotifyLog.empty with spendCalls := [(amount, 604800)] })
  | .ok (operationId, notes) =>
    match dispatch_dm env relays operationId amount notes with
    | (.error e, dms, msgs) =>
        (.error e,
          { NotifyLog.empty with
              spendCalls := [(amount, 604800)]
              nostrDms := dms
              xmppMsgs := msgs })
    | (.ok _, dms, msgs) =>
        zap_section env id amount
          { NotifyLog.empty with
              spendCalls := [(amount, 604800)]
              nostrDms := dms
              xmppMsgs := msgs }

/-- A concrete notifier environment in which every collaborator succeeds;
the xmpp transport send reports failure, which the source discards. -/
def nEnv : NotifyEnv :=
  { spendNotes := fun amt _secs => .ok ("op42", "notes" ++ toString amt)
    sendDm := fun _pk _p => .ok "dm1"
    xmppCreateClient := .ok ()
    xmppParseJid := fun j => .ok j
    xmppChatServer := "chat.example.com"
    xmppSend := fun _ _ => false
    zapGet := fun _ => none
    parseEvent := fun s =>
      if s = "zapreq" then some { kind := Kind.zapRequest } else none
    createZapEvent := fun _ _ => .ok "signedzap"
    sendEvent := fun _ => .ok "eventid1" }

/-! ## Payment watcher (spawn_invoice_subscription, callback.rs lines 188-231) -/

/-- `LnReceiveState` (fedimint_ln_client): the lifecycle events of one
invoice; `Canceled` and `Claimed` are the terminal ones. -/
inductive LnReceiveState where
  | Created
  | WaitingForPayment (invoice : String) (timeout : Nat)
  | Canceled (reason : String)
  | Funded
  | AwaitingFunds
  | Claimed
deriving DecidableEq, Repr

/-- How the spawned task ends: normally, or by a panic from an `expect`. -/
inductive TaskOutcome where
  | completed
  | panicked (msg : String)
deriving DecidableEq, Repr

/-- Observable behaviour of one watcher task run: the `set_state` writes,
the `notify_user` invocations `(id, amount)`, the notifier effect log, how
the task ended, and the stream events left unconsumed after `break`. -/
structure WatcherRun where
  stateWrites : List (Nat × InvoiceState)
  notifyCalls : List (Nat × Nat)
  notifyLog : NotifyLog
  outcome : TaskOutcome
  leftover : List LnReceiveState
deriving DecidableEq, Repr

/-- An event is terminal when the loop's match arms act on it and `break`. -/
def isTerminal : LnReceiveState → Bool
  | LnReceiveState.Canceled _ => true
  | LnReceiveState.Claimed => true
  | _ => false

/-- The single state write the loop performs for a terminal event. -/
def terminalWrite (id : Nat) : LnReceiveState → List (Nat × InvoiceState)
  | LnReceiveState.Canceled _ => [(id, InvoiceState.Cancelled)]
  | LnReceiveState.Claimed => [(id, InvoiceState.Settled)]
  | _ => []

/-- Shallow embedding of the `while let Some(op_state) = stream.next().await`
loop (lines 201-230): `Canceled` sets Cancelled and breaks; `Claimed` sets
Settled, calls `notify_user` — whose failure panics the task through
`.expect("notifying user can't fail")` — and breaks; all other events are
discarded.  `amount` is the stored invoice amount returned by `set_state`.
Store writes themselves are modelled as infallible (their failure would
panic via the other `expect`). -/
def watcher_loop (env : NotifyEnv) (relays : AppUserRelays) (id amount : Nat) :
    List LnReceiveState → WatcherRun
  | [] =>
      { stateWrites := []
        notifyCalls := []
        notifyLog := NotifyLog.empty
        outcome := TaskOutcome.completed
        leftover := [] }
  | LnReceiveState.Canceled _reason :: rest =>
      { stateWrites := [(id, InvoiceState.Cancelled)]
        notifyCalls := []
        notifyLog := NotifyLog.empty
        outcome := TaskOutcome.completed
        leftover := rest }
  | LnReceiveState.Claimed :: rest =>
      { stateWrites := [(id, InvoiceState.Settled)]
        notifyCalls := [(id, amount)]
        notifyLog := (notify_user env relays id amount).2
        outcome :=
          match (notify_user env relays id amount).1 with
          | .ok _ => TaskOutcome.completed
          | .error e =>
              TaskOutcome.panicked ("notifying user cannot fail: " ++ e)
        leftover := rest }
  | _ :: rest => watcher_loop env relays id amount rest

/-- A stored zap record for invoice 5 whose payload parses under `nEnv`. -/
def zapStored : Zap := { id := 5, request := "zapreq", event_id := none }

/-- Notifier environment in which everything succeeds except the relay
broadcast of the receipt event. -/
def nEnvRelayDown : NotifyEnv :=
  { nEnv with
      zapGet := fun i => if i = 5 then some zapStored else none
      sendEvent := fun _ => .error "relay down" }

/-! ## Receipt signer (create_zap_event, callback.rs lines 320-351) -/

/-- `lightning_invoice::Currency`; the code uses `Currency::Bitcoin`. -/
inductive Currency where
  | bitcoin
  | bitcoinTestnet
  | regtest
  | simnet
  | signet
deriving DecidableEq, Repr

/-- The bytes of a string (`str::as_bytes`), modelled at code-point level. -/
def strBytes (s : String) : List Nat := s.toList.map Char.toNat

/-- Lowercase hex digit of a nibble, as `hex::encode` produces. -/
def hexDigit (n : Nat) : Char :=
  if n < 10 then Char.ofNat (48 + n) else Char.ofNat (87 + n)

/-- The two hex digits of one byte. -/
def hexEncodeByte (b : Nat) : List Char := [hexDigit (b / 16), hexDigit (b % 16)]

/-- `hex::encode`. -/
def hexEncode (bs : List Nat) : String := ⟨(bs.map hexEncodeByte).flatten⟩

/-- Value of a lowercase hex digit. -/
def hexDigitVal (c : Char) : Nat :=
  if 97 ≤ c.toNat then c.toNat - 87 else c.toNat - 48

/-- Decode pairs of hex digits into bytes. -/
def hexDecodeChars : List Char → List Nat
  | c1 :: c2 :: rest => (16 * hexDigitVal c1 + hexDigitVal c2) :: hexDecodeChars rest
  | _ => []

/-- `hex::decode` on a well-formed even-length string. -/
def hexDecode (s : String) : List Nat := hexDecodeChars s.toList

/-- The fields `InvoiceBuilder` accumulates before signing (lines 334-341). -/
structure RawInvoice where
  currency : Currency
  amountMsats : Option Nat
  descriptionHash : List Nat
  timestamp : Nat
  paymentHash : List Nat
  paymentSecret : List Nat
  minFinalCltvExpiryDelta : Nat
deriving DecidableEq, Repr

/-- The invoice after `build_signed`; the library's encode-and-sign step is
abstract (`ZapEnv.signingHash`, `ZapEnv.signRecoverable`). -/
structure SignedInvoice where
  raw : RawInvoice
  signature : List Nat
deriving DecidableEq, Repr

/-- Payload of `EventBuilder::new_zap_receipt(fake_invoice, preimage_hex,
request)` before the nostr signature. -/
structure ZapReceiptContent where
  bolt11 : SignedInvoice
  preimageHex : Option String
  request : Event
deriving DecidableEq, Repr

/-- The receipt event returned by `.to_event(&CONFIG.nostr_sk)`. -/
structure SignedZapReceipt where
  content : ZapReceiptContent
  sig : List Nat
deriving DecidableEq, Repr

/-- External cryptographic collaborators of `create_zap_event`. -/
structure ZapEnv where
  /-- `Sha256::hash` (uninterpreted). -/
  sha256 : List Nat → List Nat
  /-- `Event::as_json` (canonical serialization, uninterpreted). -/
  asJson : Event → String
  /-- `current_timestamp()`. -/
  now : Nat
  /-- `SecretKey::from_slice`; may reject the random bytes. -/
  secretKeyFromSlice : List Nat → Except String (List Nat)
  /-- the invoice digest handed to the signing closure by `build_signed`. -/
  signingHash : RawInvoice → List Nat
  /-- `Secp256k1::sign_ecdsa_recoverable(hash, private_key)`. -/
  signRecoverable : List Nat → List Nat → List Nat
  /-- the `.to_event(&CONFIG.nostr_sk)` signature step; may fail. -/
  nostrSign : ZapReceiptContent → Except String (List Nat)

/-- Shallow embedding of `create_zap_event` (lines 320-351).  The three
`OsRng.fill_bytes` buffers (preimage, payment secret, ephemeral private key)
are inputs; the payment hash is the hash of the preimage, the description
hash is the hash of the serialized request, and the invoice carries mainnet
currency, the settled amount, and a min-final-cltv-expiry-delta of 144. -/
def create_zap_event (env : ZapEnv)
    (preimage paymentSecret privKeyBytes : List Nat)
    (request : Event) (amtMsats : Nat) : Except String SignedZapReceipt :=
  let invoiceHash := env.sha256 preimage
  match env.secretKeyFromSlice privKeyBytes with
  | .error e => .error e
  | .ok privateKey =>
    let descHash := env.sha256 (strBytes (env.asJson request))
    let raw : RawInvoice :=
      { currency := Currency.bitcoin
        amountMsats := some amtMsats
        descriptionHash := descHash
        timestamp := env.now
        paymentHash := invoiceHash
        paymentSecret := paymentSecret
        minFinalCltvExpiryDelta := 144 }
    let fakeInvoice : SignedInvoice :=
      { raw := raw
        signature := env.signRecoverable (env.signingHash raw) privateKey }
    let content : ZapReceiptContent :=
      { bolt11 := fakeInvoice
        preimageHex := some (hexEncode preimage)
        request := request }
    match env.nostrSign content with
    | .error e => .error e
    | .ok sig => .ok { content := content, sig := sig }

/-- A concrete receipt-signer environment with stand-in cryptography. -/
def zEnv : ZapEnv :=
  { sha256 := fun bs => [bs.length % 256, bs.sum % 256]
    asJson := fun _ => "json"
    now := 1700000000
    secretKeyFromSlice := fun k => .ok k
    signingHash := fun _ => [1, 2]
    signRecoverable := fun _ _ => [3, 4]
    nostrSign := fun _ => .ok [5, 6] }

/-! ## Registry lock discipline (trace model of lines 116-122 and 194-231) -/

/-- Lock, lookup, await and effect events in program order. -/
inductive TraceAction where
  | lockAcquire
  | lockRelease
  | getClient
  | awaitStream
  | dbWrite
  | networkSend
deriving DecidableEq, Repr

/-- Actions performed while the registry mutex is held (positive depth),
scanning a trace left to right. -/
def opsUnderLock : List TraceAction → Nat → List TraceAction
  | [], _ => []
  | TraceAction.lockAcquire :: rest, d => opsUnderLock rest (d + 1)
  | TraceAction.lockRelease :: rest, d => opsUnderLock rest (d - 1)
  | a :: rest, d => (if 0 < d then [a] else []) ++ opsUnderLock rest d

/-- Registry-relevant actions of `handle_callback` (lines 116-161): the guard
from `state.fm.clients.lock().await` is a temporary dropped at the end of
the `.clone()` statement, so the map lookup, invoice creation and the row
writes all run after release. -/
def handle_callback_trace : List TraceAction :=
  [TraceAction.lockAcquire, TraceAction.lockRelease, TraceAction.getClient,
   TraceAction.networkSend, TraceAction.dbWrite, TraceAction.dbWrite]

/-- Actions of the watcher loop body (lines 201-230): each iteration first
awaits `stream.next()`; the `Canceled` arm writes state, and the `Claimed`
arm writes state and performs the notifier's network calls. -/
def watcher_loop_trace : List LnReceiveState → List TraceAction
  | [] => [TraceAction.awaitStream]
  | LnReceiveState.Canceled _ :: _ =>
      [TraceAction.awaitStream, TraceAction.dbWrite]
  | LnReceiveState.Claimed :: _ =>
      [TraceAction.awaitStream, TraceAction.dbWrite, TraceAction.networkSend]
  | _ :: rest => TraceAction.awaitStream :: watcher_loop_trace rest

/-- Actions of the spawned watcher task (lines 194-231): the `MutexGuard`
bound by `let locked_clients = state.fm.clients.lock().await` lives until
the end of the async block (the borrowed `client` is still used by
`notify_user`), so the whole loop runs under the registry lock. -/
def spawn_invoice_subscription_trace (events : List LnReceiveState) :
    List TraceAction :=
  TraceAction.lockAcquire :: TraceAction.getClient ::
    (watcher_loop_trace events ++ [TraceAction.lockRelease])

end Hermes

namespace Hermes

/-- Claim C4: a callback with amount below 1000 milli-units is rejected with
the validation error `Amount < MIN_AMOUNT` and the store is left untouched
(no invoice, no record, no mutation); for any amount at or above 1000 the
first validation step passes, i.e. the handler never produces that error. -/
theorem callback_min_amount (env : CallbackEnv) (username : String)
    (params : LnurlCallbackParams) (db : Db) :
    (params.amount < 1000 →
      handle_callback env username params db =
        (.error ⟨400, "Amount < MIN_AMOUNT"⟩, db)) ∧
    (1000 ≤ params.amount →
      (handle_callback env username params db).1 ≠
        .error ⟨400, "Amount < MIN_AMOUNT"⟩) := by
  constructor
  · intro h
    unfold handle_callback
    simp [MIN_AMOUNT, h]
  · intro h
    unfold handle_callback
    have hlt : ¬ params.amount < MIN_AMOUNT := by
      simp [MIN_AMOUNT]; omega
    simp only [hlt, if_false]
    split
    · intro hcontra
      simp at hcontra
    · split
      · intro hcontra; simp at hcontra
      · split
        · intro hcontra; simp at hcontra
        · split
          · split
            · intro hcontra; simp at hcontra
            · intro hcontra; simp at hcontra
          · intro hcontra; simp at hcontra

/-- Witness for `callback_min_amount` at amount 999 (rejected, store
unchanged) and amount 2000 (first validation step passes). -/
theorem callback_min_amount_witness :
    handle_callback cEnv "bob" (mkParams 999 none) db0 =
      (.error ⟨400, "Amount < MIN_AMOUNT"⟩, db0) ∧
    (handle_callback cEnv "bob" (mkParams 2000 none) db0).1 ≠
      .error ⟨400, "Amount < MIN_AMOUNT"⟩ :=
  ⟨(callback_min_amount cEnv "bob" (mkParams 999 none) db0).1 (by decide),
   (callback_min_amount cEnv "bob" (mkParams 2000 none) db0).2 (by decide)⟩

/-- Claim C1 (evaluation at the failing input): the source guard is inverted.
A payload that parses as a well-formed zap-request event is REJECTED with
`Invalid nostr event`, while a malformed payload sails through: the callback
succeeds and persists the malformed payload as the zap record linked to the
new invoice.  The claim (and the spec) state the exact opposite. -/
theorem callback_nostr_guard_inverted :
    handle_callback cEnv "bob" (mkParams 2000 (some "zapreq")) db0 =
      (.error ⟨400, "Invalid nostr event"⟩, db0) ∧
    (handle_callback cEnv "bob" (mkParams 2000 (some "garbage")) db0).2.zaps =
      [{ id := 0, request := "garbage", event_id := none }] ∧
    ((handle_callback cEnv "bob" (mkParams 2000 (some "garbage")) db0).1.isOk = true) := by
  refine ⟨by decide, by decide, by decide⟩

/-- Claim C8: on success the `verify` field of the response is exactly
`http://{domain}:{port}/lnurlp/{username}/verify/{op_id}` where `op_id` is
the operation id returned by invoice creation. -/
theorem callback_verify_url (env : CallbackEnv) (username : String)
    (params : LnurlCallbackParams) (db : Db) (r : LnurlCallbackResponse)
    (db' : Db) (h : handle_callback env username params db = (.ok r, db')) :
    ∃ op_id pr, env.createBolt11 params.amount = .ok (op_id, pr) ∧
      r.verify = "http://" ++ env.domain ++ ":" ++ toString env.port ++
        "/lnurlp/" ++ username ++ "/verify/" ++ op_id := by
  unfold handle_callback at h
  split at h
  · simp at h
  · split at h
    · simp at h
    · split at h
      · simp at h
      · split at h
        · simp at h
        · split at h
          · split at h
            · simp at h
            · rename_i op_id pr heq
              simp only [Prod.mk.injEq, Except.ok.injEq] at h
              obtain ⟨h1, h2⟩ := h
              refine ⟨op_id, pr, heq, ?_⟩
              rw [← h1]
          · simp at h

/-- Witness for `callback_verify_url` at a concrete successful callback. -/
theorem callback_verify_url_witness :
    ∃ op_id pr, cEnv.createBolt11 (mkParams 2000 none).amount = .ok (op_id, pr) ∧
      ((handle_callback cEnv "bob" (mkParams 2000 none) db0).1.toOption.get (by decide)).verify =
        "http://" ++ cEnv.domain ++ ":" ++ toString cEnv.port ++
          "/lnurlp/" ++ "bob" ++ "/verify/" ++ op_id :=
  callback_verify_url cEnv "bob" (mkParams 2000 none) db0
    ((handle_callback cEnv "bob" (mkParams 2000 none) db0).1.toOption.get (by decide))
    (handle_callback cEnv "bob" (mkParams 2000 none) db0).2 (by decide)

theorem zap_section_spendCalls (env : NotifyEnv) (id amount : Nat)
    (base : NotifyLog) :
    (zap_section env id amount base).2.spendCalls = base.spendCalls := by
  unfold zap_section
  repeat' split
  all_goals rfl

theorem zap_section_nostrDms (env : NotifyEnv) (id amount : Nat)
    (base : NotifyLog) :
    (zap_section env id amount base).2.nostrDms = base.nostrDms := by
  unfold zap_section
  repeat' split
  all_goals rfl

theorem zap_section_xmppMsgs (env : NotifyEnv) (id amount : Nat)
    (base : NotifyLog) :
    (zap_section env id amount base).2.xmppMsgs = base.xmppMsgs := by
  unfold zap_section
  repeat' split
  all_goals rfl

theorem dispatch_dm_nostr (env : NotifyEnv) (relays : AppUserRelays)
    (opId : String) (amount : Nat) (notes : String)
    (h : relays.dm_type = "nostr") :
    dispatch_dm env relays opId amount notes =
      ((send_nostr_dm env relays opId amount notes).1,
        [{ operationId := opId, amount := amount, notes := notes }], []) := by
  unfold dispatch_dm send_nostr_dm
  cases hsd : env.sendDm relays.pubkey
      { operationId := opId, amount := amount, notes := notes } <;>
    simp [h, hsd]

theorem dispatch_dm_xmpp (env : NotifyEnv) (relays : AppUserRelays)
    (opId : String) (amount : Nat) (notes : String)
    (h : relays.dm_type = "xmpp") :
    dispatch_dm env relays opId amount notes =
      ((send_xmpp_msg env relays opId amount notes).1, [],
        (send_xmpp_msg env relays opId amount notes).2) := by
  unfold dispatch_dm
  simp [h]

theorem dispatch_dm_other (env : NotifyEnv) (relays : AppUserRelays)
    (opId : String) (amount : Nat) (notes : String)
    (h1 : relays.dm_type ≠ "nostr") (h2 : relays.dm_type ≠ "xmpp") :
    dispatch_dm env relays opId amount notes =
      (.error "Unsupported dm_type", [], []) := by
  unfold dispatch_dm
  simp [h1, h2]

/-- Claim C5: every notifier run spends notes exactly once, for exactly the
settled amount in milli-units and a validity window of exactly 604800
seconds (one week); and when the withdrawal fails, no delivery message is
handed to either channel. -/
theorem notifier_withdraw_exact (env : NotifyEnv) (relays : AppUserRelays)
    (id : Nat) (amount : Nat) :
    (notify_user env relays id amount).2.spendCalls = [(amount, 604800)] ∧
    (∀ e, env.spendNotes amount 604800 = .error e →
      (notify_user env relays id amount).2.nostrDms = [] ∧
      (notify_user env relays id amount).2.xmppMsgs = []) := by
  constructor
  · cases hsp : env.spendNotes amount 604800 with
    | error e => simp [notify_user, hsp]
    | ok p =>
      obtain ⟨opId, notes⟩ := p
      rcases hd : dispatch_dm env relays opId amount notes with ⟨r, dms, msgs⟩
      cases r with
      | error e => simp [notify_user, hsp, hd]
      | ok u => simp [notify_user, hsp, hd, zap_section_spendCalls]
  · intro e he
    simp [notify_user, he, NotifyLog.empty]

/-- Witness for `notifier_withdraw_exact` with a failing mint withdrawal. -/
theorem notifier_withdraw_exact_witness :
    (notify_user { nEnv with spendNotes := fun _ _ => .error "mint down" }
        bobRelays 5 2000).2.spendCalls = [(2000, 604800)] ∧
    (notify_user { nEnv with spendNotes := fun _ _ => .error "mint down" }
        bobRelays 5 2000).2.nostrDms = [] ∧
    (notify_user { nEnv with spendNotes := fun _ _ => .error "mint down" }
        bobRelays 5 2000).2.xmppMsgs = [] := by
  refine ⟨(notifier_withdraw_exact _ bobRelays 5 2000).1, ?_, ?_⟩
  · exact ((notifier_withdraw_exact _ bobRelays 5 2000).2 "mint down" (by decide)).1
  · exact ((notifier_withdraw_exact _ bobRelays 5 2000).2 "mint down" (by decide)).2

/-- Claim C7: after a successful withdrawal, the payload goes to exactly one
channel chosen by `dm_type`: `"nostr"` yields exactly one direct message and
no xmpp message, `"xmpp"` yields no direct message and (when the transport
client and address resolve) exactly one xmpp message, and any other selector
yields the `Unsupported dm_type` error with no dispatch at all. -/
theorem notifier_single_channel (env : NotifyEnv) (relays : AppUserRelays)
    (id : Nat) (amount : Nat) (opId notes : String)
    (hspend : env.spendNotes amount 604800 = .ok (opId, notes)) :
    (relays.dm_type = "nostr" →
      (notify_user env relays id amount).2.nostrDms =
        [{ operationId := opId, amount := amount, notes := notes }] ∧
      (notify_user env relays id amount).2.xmppMsgs = []) ∧
    (relays.dm_type = "xmpp" →
      (notify_user env relays id amount).2.nostrDms = [] ∧
      (env.xmppCreateClient = .ok () →
        ∀ j, env.xmppParseJid (relays.name ++ "@" ++ env.xmppChatServer) = .ok j →
          (notify_user env relays id amount).2.xmppMsgs =
            [{ operationId := opId, amount := amount, notes := notes }])) ∧
    (relays.dm_type ≠ "nostr" → relays.dm_type ≠ "xmpp" →
      (notify_user env relays id amount).1 = .error "Unsupported dm_type" ∧
      (notify_user env relays id amount).2.nostrDms = [] ∧
      (notify_user env relays id amount).2.xmppMsgs = []) := by
  refine ⟨?_, ?_, ?_⟩
  · intro hdm
    have hd := dispatch_dm_nostr env relays opId amount notes hdm
    rcases hr : (send_nostr_dm env relays opId amount notes).1 with e | u
    · rw [hr] at hd
      simp [notify_user, hspend, hd]
    · rw [hr] at hd
      simp [notify_user, hspend, hd, zap_section_nostrDms, zap_section_xmppMsgs]
  · intro hdm
    have hd := dispatch_dm_xmpp env relays opId amount notes hdm
    constructor
    · rcases hr : (send_xmpp_msg env relays opId amount notes).1 with e | u
      · rw [hr] at hd
        simp [notify_user, hspend, hd]
      · rw [hr] at hd
        simp [notify_user, hspend, hd, zap_section_nostrDms]
    · intro hc j hj
      have hsx : send_xmpp_msg env relays opId amount notes =
          (.ok (), [{ operationId := opId, amount := amount, notes := notes }]) := by
        simp [send_xmpp_msg, hc, hj]
      rw [hsx] at hd
      simp [notify_user, hspend, hd, zap_section_xmppMsgs]
  · intro h1 h2
    have hd := dispatch_dm_other env relays opId amount notes h1 h2
    simp [notify_user, hspend, hd]

/-- Witness for `notifier_single_channel` over the three selector cases. -/
theorem notifier_single_channel_witness :
    ((notify_user nEnv bobRelays 5 2000).2.nostrDms =
        [{ operationId := "op42", amount := 2000, notes := "notes2000" }] ∧
      (notify_user nEnv bobRelays 5 2000).2.xmppMsgs = []) ∧
    ((notify_user nEnv { bobRelays with dm_type := "xmpp" } 5 2000).2.xmppMsgs =
        [{ operationId := "op42", amount := 2000, notes := "notes2000" }]) ∧
    ((notify_user nEnv { bobRelays with dm_type := "signal" } 5 2000).1 =
        .error "Unsupported dm_type") := by
  refine ⟨?_, ?_, ?_⟩
  · exact (notifier_single_channel nEnv bobRelays 5 2000 "op42" "notes2000"
      (by decide)).1 (by decide)
  · exact (((notifier_single_channel nEnv { bobRelays with dm_type := "xmpp" }
      5 2000 "op42" "notes2000" (by decide)).2.1 (by decide)).2 (by decide)
      ("bob" ++ "@" ++ "chat.example.com") (by decide))
  · exact ((notifier_single_channel nEnv { bobRelays with dm_type := "signal" }
      5 2000 "op42" "notes2000" (by decide)).2.2 (by decide) (by decide)).1

/-- Claim C10: once the transport client is constructed and the recipient
address parses, `send_xmpp_msg` returns success with the one payload logged,
for every possible outcome of the underlying message send — the send result
is discarded, so a delivery failure on that channel is never surfaced. -/
theorem xmpp_send_result_discarded (env : NotifyEnv) (relays : AppUserRelays)
    (opId : String) (amount : Nat) (notes : String) (j : String)
    (hc : env.xmppCreateClient = .ok ())
    (hj : env.xmppParseJid (relays.name ++ "@" ++ env.xmppChatServer) = .ok j) :
    (∀ f, send_xmpp_msg { env with xmppSend := f } relays opId amount notes =
      send_xmpp_msg env relays opId amount notes) ∧
    (send_xmpp_msg env relays opId amount notes).1 = .ok () ∧
    (send_xmpp_msg env relays opId amount notes).2 =
      [{ operationId := opId, amount := amount, notes := notes }] := by
  refine ⟨fun f => rfl, ?_, ?_⟩ <;> simp [send_xmpp_msg, hc, hj]

/-- Witness for `xmpp_send_result_discarded`: the concrete transport whose
send reports failure still yields a successful delivery result. -/
theorem xmpp_send_result_discarded_witness :
    (send_xmpp_msg nEnv bobRelays "op42" 2000 "n").1 = .ok () ∧
    (send_xmpp_msg nEnv bobRelays "op42" 2000 "n").2 =
      [{ operationId := "op42", amount := 2000, notes := "n" }] :=
  ⟨(xmpp_send_result_discarded nEnv bobRelays "op42" 2000 "n"
      ("bob" ++ "@" ++ "chat.example.com") (by decide) (by decide)).2.1,
   (xmpp_send_result_discarded nEnv bobRelays "op42" 2000 "n"
      ("bob" ++ "@" ++ "chat.example.com") (by decide) (by decide)).2.2⟩

/-- Claim C3: the watcher discards all non-terminal events, performs exactly
one state write on the first terminal event (Cancelled on `Canceled`,
Settled on `Claimed`), invokes the notifier exactly in the `Claimed` case,
and stops consuming the stream immediately after that first terminal event
(the rest of the stream — including further terminal events — is left
unconsumed, so no second write or notification can occur); a stream with no
terminal event produces no write and no notification. -/
theorem watcher_first_terminal (env : NotifyEnv) (relays : AppUserRelays)
    (id amount : Nat) :
    (∀ pre e post, (∀ x ∈ pre, isTerminal x = false) → isTerminal e = true →
      (watcher_loop env relays id amount (pre ++ e :: post)).leftover = post ∧
      (watcher_loop env relays id amount (pre ++ e :: post)).stateWrites =
        terminalWrite id e ∧
      (terminalWrite id e).length = 1 ∧
      (watcher_loop env relays id amount (pre ++ e :: post)).notifyCalls =
        (if e = LnReceiveState.Claimed then [(id, amount)] else [])) ∧
    (∀ events, (∀ x ∈ events, isTerminal x = false) →
      (watcher_loop env relays id amount events).stateWrites = [] ∧
      (watcher_loop env relays id amount events).notifyCalls = [] ∧
      (watcher_loop env relays id amount events).leftover = []) := by
  constructor
  · intro pre
    induction pre with
    | nil =>
      intro e post _ he
      cases e <;> simp_all [watcher_loop, isTerminal, terminalWrite]
    | cons x pre ih =>
      intro e post hpre he
      have hx : isTerminal x = false := hpre x (List.mem_cons_self x pre)
      have hrest : ∀ y ∈ pre, isTerminal y = false :=
        fun y hy => hpre y (List.mem_cons_of_mem x hy)
      cases x with
      | Canceled r => simp [isTerminal] at hx
      | Claimed => simp [isTerminal] at hx
      | Created => simpa [watcher_loop] using ih e post hrest he
      | WaitingForPayment i t => simpa [watcher_loop] using ih e post hrest he
      | Funded => simpa [watcher_loop] using ih e post hrest he
      | AwaitingFunds => simpa [watcher_loop] using ih e post hrest he
  · intro events
    induction events with
    | nil => intro h; simp [watcher_loop]
    | cons x rest ih =>
      intro h
      have hx : isTerminal x = false := h x (List.mem_cons_self x rest)
      have hrest : ∀ y ∈ rest, isTerminal y = false :=
        fun y hy => h y (List.mem_cons_of_mem x hy)
      cases x with
      | Canceled r => simp [isTerminal] at hx
      | Claimed => simp [isTerminal] at hx
      | Created => simpa [watcher_loop] using ih hrest
      | WaitingForPayment i t => simpa [watcher_loop] using ih hrest
      | Funded => simpa [watcher_loop] using ih hrest
      | AwaitingFunds => simpa [watcher_loop] using ih hrest

/-- Witness for `watcher_first_terminal`: a stream with two non-terminal
events, a `Claimed`, and a trailing second terminal event that stays
unconsumed; and an all-non-terminal stream. -/
theorem watcher_first_terminal_witness :
    (watcher_loop nEnv bobRelays 5 2000
        ([LnReceiveState.Created, LnReceiveState.Funded] ++
          LnReceiveState.Claimed :: [LnReceiveState.Claimed])).leftover =
      [LnReceiveState.Claimed] ∧
    (watcher_loop nEnv bobRelays 5 2000
        ([LnReceiveState.Created, LnReceiveState.Funded] ++
          LnReceiveState.Claimed :: [LnReceiveState.Claimed])).stateWrites =
      terminalWrite 5 LnReceiveState.Claimed ∧
    (watcher_loop nEnv bobRelays 5 2000 [LnReceiveState.Created]).stateWrites =
      [] := by
  refine ⟨?_, ?_, ?_⟩
  · exact ((watcher_first_terminal nEnv bobRelays 5 2000).1
      [LnReceiveState.Created, LnReceiveState.Funded] LnReceiveState.Claimed
      [LnReceiveState.Claimed] (by decide) (by decide)).1
  · exact ((watcher_first_terminal nEnv bobRelays 5 2000).1
      [LnReceiveState.Created, LnReceiveState.Funded] LnReceiveState.Claimed
      [LnReceiveState.Claimed] (by decide) (by decide)).2.1
  · exact ((watcher_first_terminal nEnv bobRelays 5 2000).2
      [LnReceiveState.Created] (by decide)).1

/-- Claim C2 counterexample: with a zap record attached and the relay
broadcast failing, the watcher task does NOT complete normally — the
notifier error propagates into `.expect("notifying user can't fail")` and
panics the task — refuting the claim that the broadcast failure is only
logged and the watcher completes normally. -/
theorem broadcast_failure_not_merely_logged :
    (watcher_loop nEnvRelayDown bobRelays 5 2000
        [LnReceiveState.Claimed]).outcome ≠ TaskOutcome.completed := by
  decide

/-- Claim C2 (amended): when the receipt broadcast fails after a settled
invoice was delivered, the error propagates out of the notifier — it is not
merely logged — so the watcher task panics instead of completing normally;
the Settled state write and the already-dispatched delivery message are
unaffected, and the receipt-event id is never set on the zap record. -/
theorem broadcast_failure_aborts_watcher (env : NotifyEnv)
    (relays : AppUserRelays) (id amount : Nat) (opId notes dmId : String)
    (zap : Zap) (req : Event) (ev err : String)
    (hspend : env.spendNotes amount 604800 = .ok (opId, notes))
    (hdm : relays.dm_type = "nostr")
    (hsend : env.sendDm relays.pubkey
      { operationId := opId, amount := amount, notes := notes } = .ok dmId)
    (hzap : env.zapGet id = some zap)
    (hparse : env.parseEvent zap.request = some req)
    (hcreate : env.createZapEvent req amount = .ok ev)
    (hbroadcast : env.sendEvent ev = .error err) :
    (notify_user env relays id amount).1 = .error err ∧
    (notify_user env relays id amount).2.eventIdSets = [] ∧
    (notify_user env relays id amount).2.nostrDms =
      [{ operationId := opId, amount := amount, notes := notes }] ∧
    (watcher_loop env relays id amount [LnReceiveState.Claimed]).outcome =
      TaskOutcome.panicked ("notifying user cannot fail: " ++ err) ∧
    (watcher_loop env relays id amount [LnReceiveState.Claimed]).stateWrites =
      [(id, InvoiceState.Settled)] := by
  have hnu : notify_user env relays id amount =
      (.error err,
        { NotifyLog.empty with
            spendCalls := [(amount, 604800)]
            nostrDms := [{ operationId := opId, amount := amount, notes := notes }]
            xmppMsgs := []
            broadcasts := [ev] }) := by
    simp [notify_user, hspend, dispatch_dm, send_nostr_dm, hdm, hsend,
      zap_section, hzap, hparse, hcreate, hbroadcast, NotifyLog.empty]
  refine ⟨?_, ?_, ?_, ?_, ?_⟩ <;>
    simp [hnu, watcher_loop, NotifyLog.empty]

/-- Witness for `broadcast_failure_aborts_watcher` in the concrete
relay-down environment. -/
theorem broadcast_failure_aborts_watcher_witness :
    (notify_user nEnvRelayDown bobRelays 5 2000).1 = .error "relay down" ∧
    (notify_user nEnvRelayDown bobRelays 5 2000).2.eventIdSets = [] ∧
    (watcher_loop nEnvRelayDown bobRelays 5 2000
        [LnReceiveState.Claimed]).outcome =
      TaskOutcome.panicked ("notifying user cannot fail: " ++ "relay down") := by
  have h := broadcast_failure_aborts_watcher nEnvRelayDown bobRelays 5 2000
    "op42" "notes2000" "dm1" zapStored { kind := Kind.zapRequest } "signedzap"
    "relay down" (by decide) (by decide) (by decide) (by decide) (by decide)
    (by decide) (by decide)
  exact ⟨h.1, h.2.1, h.2.2.2.1⟩

theorem hexDigitVal_hexDigit (n : Nat) (h : n < 16) :
    hexDigitVal (hexDigit n) = n := by
  interval_cases n <;> decide

theorem hexDecodeChars_encode (bs : List Nat) (h : ∀ b ∈ bs, b < 256) :
    hexDecodeChars ((bs.map hexEncodeByte).flatten) = bs := by
  induction bs with
  | nil => rfl
  | cons b rest ih =>
    have hb : b < 256 := h b (List.mem_cons_self b rest)
    have hrest : ∀ x ∈ rest, x < 256 := fun x hx => h x (List.mem_cons_of_mem b hx)
    have h1 : b / 16 < 16 := by omega
    have h2 : b % 16 < 16 := by omega
    show (16 * hexDigitVal (hexDigit (b / 16)) + hexDigitVal (hexDigit (b % 16))) ::
        hexDecodeChars ((rest.map hexEncodeByte).flatten) = b :: rest
    rw [hexDigitVal_hexDigit _ h1, hexDigitVal_hexDigit _ h2, ih hrest]
    congr 1
    omega

theorem hexDecode_hexEncode (bs : List Nat) (h : ∀ b ∈ bs, b < 256) :
    hexDecode (hexEncode bs) = bs := by
  unfold hexDecode hexEncode
  exact hexDecodeChars_encode bs h

/-- Claim C6: every successfully constructed receipt event embeds a fake
invoice on mainnet with the settled amount and a min-final-cltv-expiry-delta
of 144 blocks, whose payment hash is the hash of the bytes obtained by
decoding the hex preimage embedded in the event, and whose description hash
is the hash of the canonical serialization of the original request event. -/
theorem zap_receipt_invoice_hashes (env : ZapEnv)
    (preimage paymentSecret privKeyBytes : List Nat) (request : Event)
    (amtMsats : Nat) (out : SignedZapReceipt)
    (h : create_zap_event env preimage paymentSecret privKeyBytes request
      amtMsats = .ok out)
    (hbytes : ∀ b ∈ preimage, b < 256) :
    ∃ s, out.content.preimageHex = some s ∧
      out.content.bolt11.raw.paymentHash = env.sha256 (hexDecode s) ∧
      out.content.bolt11.raw.descriptionHash =
        env.sha256 (strBytes (env.asJson request)) ∧
      out.content.bolt11.raw.currency = Currency.bitcoin ∧
      out.content.bolt11.raw.amountMsats = some amtMsats ∧
      out.content.bolt11.raw.minFinalCltvExpiryDelta = 144 := by
  unfold create_zap_event at h
  split at h
  · simp at h
  · dsimp only at h
    split at h
    · simp at h
    · rw [Except.ok.injEq] at h
      subst h
      refine ⟨hexEncode preimage, rfl, ?_, rfl, rfl, rfl, rfl⟩
      rw [hexDecode_hexEncode preimage hbytes]

/-- Witness for `zap_receipt_invoice_hashes` on concrete random buffers. -/
theorem zap_receipt_invoice_hashes_witness :
    ∃ s, ((create_zap_event zEnv [0, 255] [7] [9] { kind := Kind.zapRequest }
        2000).toOption.get (by decide)).content.preimageHex = some s ∧
      ((create_zap_event zEnv [0, 255] [7] [9] { kind := Kind.zapRequest }
        2000).toOption.get (by decide)).content.bolt11.raw.paymentHash =
        zEnv.sha256 (hexDecode s) ∧
      ((create_zap_event zEnv [0, 255] [7] [9] { kind := Kind.zapRequest }
        2000).toOption.get (by decide)).content.bolt11.raw.descriptionHash =
        zEnv.sha256 (strBytes (zEnv.asJson { kind := Kind.zapRequest })) ∧
      ((create_zap_event zEnv [0, 255] [7] [9] { kind := Kind.zapRequest }
        2000).toOption.get (by decide)).content.bolt11.raw.currency =
        Currency.bitcoin ∧
      ((create_zap_event zEnv [0, 255] [7] [9] { kind := Kind.zapRequest }
        2000).toOption.get (by decide)).content.bolt11.raw.amountMsats =
        some 2000 ∧
      ((create_zap_event zEnv [0, 255] [7] [9] { kind := Kind.zapRequest }
        2000).toOption.get (by decide)).content.bolt11.raw.minFinalCltvExpiryDelta =
        144 :=
  zap_receipt_invoice_hashes zEnv [0, 255] [7] [9] { kind := Kind.zapRequest }
    2000 ((create_zap_event zEnv [0, 255] [7] [9] { kind := Kind.zapRequest }
      2000).toOption.get (by decide)) (by decide) (by decide)

/-- Claim C9 (refuting evidence): the callback handler performs no action at
all under the registry lock — it clones the map and releases before the
lookup, the invoice network call and the row writes — but the spawned
watcher task awaits the lifecycle stream while holding the registry lock,
for every possible event stream, contradicting the claim that no component
holds the lock across awaiting the lifecycle stream. -/
theorem watcher_holds_lock_across_stream_await :
    opsUnderLock handle_callback_trace 0 = [] ∧
    ∀ events, TraceAction.awaitStream ∈
      opsUnderLock (spawn_invoice_subscription_trace events) 0 := by
  refine ⟨by decide, fun events => ?_⟩
  cases events with
  | nil => decide
  | cons e rest =>
    cases e <;>
      simp [spawn_invoice_subscription_trace, watcher_loop_trace, opsUnderLock]

end Hermes
